import Mathlib

/-!
Shallow embedding of the iRacing RaceSafe repository (risk analysis engine,
grid analyzer and session monitor) together with proofs of the specified
properties.  Numbers are modelled as rationals (JS numbers), JS
`Math.round` as `jsRound`, maps/sets as association lists / lists.
-/

namespace RaceSafe

/-- JS `Math.round`: round half toward positive infinity. -/
def jsRound (q : ℚ) : ℤ := ⌊q + 1/2⌋

/- ===================================================================
   src/analysis/riskAnalysis.ts
   =================================================================== -/

/-- The `while (remaining >= 4)` loop of `estimateIncidentTypes`:
returns (number of subtractions, final remainder).  The first pattern
applies exactly when the remainder is at least 4. -/
def sub4Loop : ℕ → ℕ × ℕ
  | r + 4 =>
    let p := sub4Loop r
    (p.1 + 1, p.2)
  | r => (0, r)

/-- The `while (remaining >= 2)` loop of `estimateIncidentTypes`. -/
def sub2Loop : ℕ → ℕ × ℕ
  | r + 2 =>
    let p := sub2Loop r
    (p.1 + 1, p.2)
  | r => (0, r)

/-- `estimateIncidentTypes` (riskAnalysis.ts:136-159): greedy decomposition
of a lap incident delta into (x4, x2, x1) counts, highest first.
Non-positive deltas yield (0, 0, 0). -/
def estimateIncidentTypes (lapDelta : ℤ) : ℤ × ℤ × ℤ :=
  if lapDelta ≤ 0 then (0, 0, 0)
  else
    let s4 := sub4Loop lapDelta.toNat
    let s2 := sub2Loop s4.2
    ((s4.1 : ℤ), (s2.1 : ℤ), (s2.2 : ℤ))

theorem sub4Loop_eq (r : ℕ) : sub4Loop r = (r / 4, r % 4) := by
  induction r using Nat.strong_induction_on with
  | _ r ih =>
    match r with
    | r + 4 =>
      rw [sub4Loop, ih r (by omega)]
      simp only [Prod.mk.injEq]
      omega
    | 0 => rfl
    | 1 => rfl
    | 2 => rfl
    | 3 => rfl

theorem sub2Loop_eq (r : ℕ) : sub2Loop r = (r / 2, r % 2) := by
  induction r using Nat.strong_induction_on with
  | _ r ih =>
    match r with
    | r + 2 =>
      rw [sub2Loop, ih r (by omega)]
      simp only [Prod.mk.injEq]
      omega
    | 0 => rfl
    | 1 => rfl

/-- One entry of the per-lap chart data used by `analyzeIncidentTiming`
(`lapNumber` and cumulative `incident` points at that lap). -/
structure LapData where
  lapNumber : ℤ
  incident : ℤ
deriving Repr, DecidableEq

/-- The three timing counters plus the three incident-type counters
accumulated by the loops of `analyzeIncidentTiming` (riskAnalysis.ts:165-214). -/
structure TimingTally where
  lap1_2Incidents : ℤ
  midRaceIncidents : ℤ
  finalLapIncidents : ℤ
  contact4x : ℤ
  lostControl2x : ℤ
  offTrack1x : ℤ
deriving Repr, DecidableEq

def TimingTally.zero : TimingTally := ⟨0, 0, 0, 0, 0, 0⟩

/-- The body of the inner `for (let i = 1; ...)` loop of
`analyzeIncidentTiming` for one adjacent lap pair (prev, cur). -/
def tallyLapPair (totalLaps : ℕ) (acc : TimingTally) (prev cur : LapData) : TimingTally :=
  let lapIncidents := cur.incident - prev.incident
  if lapIncidents ≤ 0 then acc
  else
    let lapNumber := cur.lapNumber
    let acc :=
      if lapNumber ≤ 2 then
        { acc with lap1_2Incidents := acc.lap1_2Incidents + lapIncidents }
      else if lapNumber ≥ (totalLaps : ℤ) - 1 then
        { acc with finalLapIncidents := acc.finalLapIncidents + lapIncidents }
      else
        { acc with midRaceIncidents := acc.midRaceIncidents + lapIncidents }
    let types := estimateIncidentTypes lapIncidents
    { acc with
      contact4x := acc.contact4x + types.1
      lostControl2x := acc.lostControl2x + types.2.1
      offTrack1x := acc.offTrack1x + types.2.2 }

/-- Processing of one race's lap chart data: the inner loop runs over
adjacent lap pairs; an empty chart contributes nothing (`continue`). -/
def tallyRace (acc : TimingTally) (lapData : List LapData) : TimingTally :=
  if lapData.length = 0 then acc
  else
    let totalLaps := lapData.length
    (lapData.zip lapData.tail).foldl
      (fun a p => tallyLapPair totalLaps a p.1 p.2) acc

/-- The outer loop of `analyzeIncidentTiming` over the analyzed races
(a race whose lap data fetch failed is represented by an absent entry). -/
def tallyRaces (races : List (List LapData)) : TimingTally :=
  races.foldl tallyRace TimingTally.zero

/-- The `IncidentTiming` result record: fractional split of incident
points over the three windows. -/
structure IncidentTiming where
  lap1_2 : ℚ
  midRace : ℚ
  finalLap : ℚ
deriving Repr, DecidableEq

/-- The `IncidentTypeBreakdown` result record. -/
structure IncidentTypeBreakdown where
  contact4x : ℤ
  lostControl2x : ℤ
  offTrack1x : ℤ
  total : ℤ
deriving Repr, DecidableEq

/-- Final normalization step of `analyzeIncidentTiming`
(riskAnalysis.ts:216-234): zero total yields the fixed default triple,
otherwise each window total is divided by the grand total and rounded to
two decimals with `Math.round(x * 100) / 100`. -/
def timingOfTally (t : TimingTally) : IncidentTiming :=
  let totalTiming := t.lap1_2Incidents + t.midRaceIncidents + t.finalLapIncidents
  if totalTiming = 0 then
    { lap1_2 := 33/100, midRace := 34/100, finalLap := 33/100 }
  else
    { lap1_2 := (jsRound ((t.lap1_2Incidents / totalTiming : ℚ) * 100) : ℚ) / 100
      midRace := (jsRound ((t.midRaceIncidents / totalTiming : ℚ) * 100) : ℚ) / 100
      finalLap := (jsRound ((t.finalLapIncidents / totalTiming : ℚ) * 100) : ℚ) / 100 }

def typesOfTally (t : TimingTally) : IncidentTypeBreakdown :=
  { contact4x := t.contact4x
    lostControl2x := t.lostControl2x
    offTrack1x := t.offTrack1x
    total := t.contact4x + t.lostControl2x + t.offTrack1x }

/-- `analyzeIncidentTiming` as a pure function of the per-race lap chart
data the client returns. -/
def analyzeIncidentTiming (races : List (List LapData)) :
    IncidentTiming × IncidentTypeBreakdown :=
  (timingOfTally (tallyRaces races), typesOfTally (tallyRaces races))

/-- The `baseScore` computation of `calculateRiskScore`
(riskAnalysis.ts:272-280). -/
def riskBaseScore (avgIncidents : ℚ) : ℚ :=
  if avgIncidents ≤ 2 then avgIncidents * (3/2)
  else if avgIncidents ≤ 5 then 3 + (avgIncidents - 2) * 1
  else 6 + min ((avgIncidents - 5) * (8/10)) 4

/-- The `timingModifier` computation of `calculateRiskScore`
(riskAnalysis.ts:283-297). -/
def riskTimingModifier (timing : IncidentTiming) : ℚ :=
  (if timing.lap1_2 > 4/10 then 3/2
   else if timing.lap1_2 > 3/10 then 1/2 else 0)
  + (if timing.finalLap > 3/10 then 1
     else if timing.finalLap > 1/4 then 1/2 else 0)

/-- `calculateRiskScore` (riskAnalysis.ts:267-302): base plus modifier,
capped at 10 and rounded to one decimal. -/
def calculateRiskScore (avgIncidents : ℚ) (timing : IncidentTiming) : ℚ :=
  let finalScore := min (riskBaseScore avgIncidents + riskTimingModifier timing) 10
  (jsRound (finalScore * 10) : ℚ) / 10

/-- `classifyRisk` (riskAnalysis.ts:307-311). -/
def classifyRisk (riskScore : ℚ) : String :=
  if riskScore < 4 then "LOW"
  else if riskScore < 7 then "MODERATE"
  else "HIGH"

/- ===================================================================
   src/analysis/gridAnalysis.ts
   =================================================================== -/

/-- The fields of `UserProfile` used by `generateGridRecommendation`. -/
structure UserProfile where
  sr : ℚ
  srGoal : ℚ
deriving Repr, DecidableEq

/-- `generateGridRecommendation` (gridAnalysis.ts:115-137). -/
def generateGridRecommendation (overallRisk : ℚ) (highRiskCount : ℕ)
    (userProfile : UserProfile) : String :=
  let srBuffer := userProfile.sr - userProfile.srGoal
  let srAtRisk := srBuffer < 2/10
  if srAtRisk ∧ overallRisk ≥ 5 then "CONSERVATIVE"
  else if overallRisk ≥ 7 ∨ highRiskCount ≥ 5 then "CONSERVATIVE"
  else if overallRisk ≥ 5 ∨ highRiskCount ≥ 3 then "MODERATE"
  else "AGGRESSIVE"

/- ===================================================================
   race-selection / error logic of analyzeDriver (riskAnalysis.ts:26-52)
   =================================================================== -/

/-- The fields of a recent race record relevant to the race-selection
logic of `analyzeDriver`. -/
structure RaceRec where
  sessionStartTime : ℤ
  incidents : ℤ
deriving Repr, DecidableEq

/-- JS `Array.prototype.slice(0, end)`: a negative end counts from the
end of the array. -/
def jsSliceTo (l : List α) (endIdx : ℤ) : List α :=
  if endIdx < 0 then l.take ((l.length : ℤ) + endIdx).toNat
  else l.take endIdx.toNat

/-- The combined lookup window of `analyzeDriver`: the date-range search
results sorted most-recent-first, falling back to the recent-races
endpoint when the search returned nothing. -/
def combinedRaces (searchRaces recentRaces : List RaceRec) : List RaceRec :=
  let sorted := searchRaces.mergeSort
    (fun a b => decide (b.sessionStartTime ≤ a.sessionStartTime))
  if sorted.length = 0 then recentRaces else sorted

/-- Race-selection and error outcome of `analyzeDriver`: the combined
window is cut with `slice(0, numRaces)`; an empty analysis subset raises
the no-recent-races error, otherwise the subset is analyzed and a
profile is produced. -/
def analyzeDriverOutcome (searchRaces recentRaces : List RaceRec)
    (custId : ℕ) (numRaces : ℤ) : Except String (List RaceRec) :=
  let racesToAnalyze := jsSliceTo (combinedRaces searchRaces recentRaces) numRaces
  if racesToAnalyze.length = 0 then
    Except.error ("No recent races found for driver " ++ toString custId)
  else
    Except.ok racesToAnalyze

/- ===================================================================
   src/scripts/racesafe.ts
   =================================================================== -/

inductive SessionType
  | practice | qualify | race | warmup
deriving Repr, DecidableEq

inductive SessionPhase
  | WAITING | CONNECTING | PRE_RACE | RACING | POST_RACE
deriving Repr, DecidableEq

inductive AlertType
  | danger | warning | incident | clear
deriving Repr, DecidableEq

/-- One session type's pair of alert switches. -/
structure SessionAlertSwitches where
  danger : Bool
  incident : Bool
deriving Repr, DecidableEq

/-- The `alertConfig` table (racesafe.ts:22-39). -/
structure AlertConfig where
  practice : SessionAlertSwitches
  qualify : SessionAlertSwitches
  race : SessionAlertSwitches
  warmup : SessionAlertSwitches
deriving Repr, DecidableEq

/-- JS `String.prototype.toLowerCase` (character-wise lowercasing). -/
def strToLower (s : String) : String := String.mk (s.data.map Char.toLower)

/-- `process.env.X?.toLowerCase() !== 'off'`: enabled when the variable is
absent or its lowercase form is not the string off. -/
def switchEnabled (envVar : Option String) : Bool :=
  match envVar with
  | none => true
  | some s => !(strToLower s == "off")

/-- Construction of `alertConfig` from the eight environment variables. -/
def mkAlertConfig (pd pi_ qd qi rd ri wd wi : Option String) : AlertConfig :=
  { practice := { danger := switchEnabled pd, incident := switchEnabled pi_ }
    qualify := { danger := switchEnabled qd, incident := switchEnabled qi }
    race := { danger := switchEnabled rd, incident := switchEnabled ri }
    warmup := { danger := switchEnabled wd, incident := switchEnabled wi } }

/-- The `alertConfig[currentSessionType]` lookup. -/
def AlertConfig.forSession (cfg : AlertConfig) : SessionType → SessionAlertSwitches
  | SessionType.practice => cfg.practice
  | SessionType.qualify => cfg.qualify
  | SessionType.race => cfg.race
  | SessionType.warmup => cfg.warmup

/-- Whether `playAlert` (racesafe.ts:56-95) emits a sound: danger and
incident are gated by the current session type's switches; warning always
plays a beep; clear returns without a sound. -/
def playAlertEmits (cfg : AlertConfig) (currentSessionType : SessionType)
    (type_ : AlertType) : Bool :=
  let sessionConfig := cfg.forSession currentSessionType
  match type_ with
  | AlertType.danger => sessionConfig.danger
  | AlertType.incident => sessionConfig.incident
  | AlertType.warning => true
  | AlertType.clear => false

/-- Driver roster entry built by `handleSessionInfo`. -/
structure SessionDriver where
  carIdx : ℕ
  custId : ℕ
  name : String
  iRating : ℤ
  licenseLevel : String
  carNumber : String
deriving Repr, DecidableEq

/-- The fields of `AnalyzedDriver` consumed by the in-race monitor. -/
structure AnalyzedDriver where
  carIdx : ℕ
  carNumber : String
  custId : ℕ
  riskScore : ℚ
  riskLevel : String
  avgIncidents : ℚ
  patterns : List String
deriving Repr, DecidableEq

/-- A `NearbyDriver` entry (racesafe.ts:146-151). -/
structure NearbyDriver where
  driver : AnalyzedDriver
  gap : ℚ
  direction : String
  sessionIncidents : ℤ
deriving Repr, DecidableEq

/-- The module-level mutable session state of racesafe.ts
(racesafe.ts:157-193), maps modelled as association lists keyed by
carIdx and the danger-zone set as a duplicate-free list. -/
structure GlobalState where
  client : Option ℕ
  authenticated : Bool
  sessionDrivers : List (ℕ × SessionDriver)
  analyzedDrivers : List (ℕ × AnalyzedDriver)
  myCarIdx : ℤ
  currentPhase : SessionPhase
  preRaceAnalysisComplete : Bool
  currentSessionType : SessionType
  driversInDangerZone : List ℕ
  tokenRefreshInterval : Option ℕ
  trackName : String
  seriesName : String
  mySessionIncidents : ℤ
  lastKnownIncidents : ℤ
  driverSessionIncidents : List (ℕ × ℤ)
deriving Repr, DecidableEq

/-- Initial values of the module-level state declarations. -/
def initialGlobalState : GlobalState :=
  { client := none
    authenticated := false
    sessionDrivers := []
    analyzedDrivers := []
    myCarIdx := -1
    currentPhase := SessionPhase.WAITING
    preRaceAnalysisComplete := false
    currentSessionType := SessionType.race
    driversInDangerZone := []
    tokenRefreshInterval := none
    trackName := ""
    seriesName := ""
    mySessionIncidents := 0
    lastKnownIncidents := -1
    driverSessionIncidents := [] }

/-- `resetSessionState` (racesafe.ts:203-233): clears all session-scoped
state, stops the token-refresh timer, and keeps `client` and
`authenticated`. -/
def resetSessionState (s : GlobalState) : GlobalState :=
  { s with
    sessionDrivers := []
    analyzedDrivers := []
    driverSessionIncidents := []
    driversInDangerZone := []
    myCarIdx := -1
    currentPhase := SessionPhase.WAITING
    currentSessionType := SessionType.race
    preRaceAnalysisComplete := false
    trackName := ""
    seriesName := ""
    mySessionIncidents := 0
    lastKnownIncidents := -1
    tokenRefreshInterval := none }

/-- `DANGER_ZONE_THRESHOLD` (racesafe.ts:175). -/
def DANGER_ZONE_THRESHOLD : ℚ := 3/2

/-- JS `Set.prototype.add` on the list model. -/
def setAdd (s : List ℕ) (c : ℕ) : List ℕ :=
  if s.contains c then s else s ++ [c]

/-- The danger-zone alert logic at the end of `displayRaceStatus`
(racesafe.ts:705-742): filter the nearby list to HIGH-risk drivers,
collect those with gap below the threshold into `currentlyInZone`,
fire a danger alert for each one not already in the tracked set, and
replace the tracked set by `currentlyInZone`.  Returns the new tracked
set and the carIdx list of fired alerts, in iteration order. -/
def displayRaceStatus (driversInDangerZone : List ℕ)
    (nearby : List NearbyDriver) : List ℕ × List ℕ :=
  let highRiskNearby := nearby.filter (fun n => n.driver.riskLevel == "HIGH")
  highRiskNearby.foldl
    (fun acc threat =>
      if threat.gap < DANGER_ZONE_THRESHOLD then
        (setAdd acc.1 threat.driver.carIdx,
         if driversInDangerZone.contains threat.driver.carIdx then acc.2
         else acc.2 ++ [threat.driver.carIdx])
      else acc)
    ([], [])

/-- One telemetry update's values, per-car arrays modelled as total
functions of the car index. -/
structure TelemetryFrame where
  sessionFlags : ℕ
  playerCarMyIncidentCount : ℤ
  carIdxLap : ℕ → ℤ
  carIdxLapDistPct : ℕ → ℚ
  carIdxClassPosition : ℕ → ℤ
  carIdxOnPitRoad : ℕ → Bool

/-- The nearby-driver scan of `handleTelemetry` (racesafe.ts:624-651):
skip the local car, cars off track and cars on pit road; wrap the
track-fraction gap into [-0.5, 0.5]; scale by the 90-second estimated
lap time; keep gaps of at most five seconds. -/
def computeNearby (s : GlobalState) (t : TelemetryFrame) (myLapDistPct : ℚ) :
    List NearbyDriver :=
  s.analyzedDrivers.foldl
    (fun acc p =>
      let carIdx := p.1
      let analysis := p.2
      if Int.ofNat carIdx = s.myCarIdx then acc
      else if t.carIdxLap carIdx < 0 then acc
      else if t.carIdxOnPitRoad carIdx then acc
      else
        let trackGap0 := t.carIdxLapDistPct carIdx - myLapDistPct
        let trackGap1 := if trackGap0 > 1/2 then trackGap0 - 1 else trackGap0
        let trackGap := if trackGap1 < -(1/2) then trackGap1 + 1 else trackGap1
        let avgLapTime : ℚ := 90
        let gapSeconds := |trackGap * avgLapTime|
        if gapSeconds > 5 then acc
        else
          acc ++ [{ driver := analysis
                    gap := gapSeconds
                    direction := if trackGap > 0 then "AHEAD" else "BEHIND"
                    sessionIncidents := ((s.driverSessionIncidents.lookup carIdx).getD 0) }])
    []

/-- `handleTelemetry` (racesafe.ts:559-658) as a pure step function:
returns the updated session state and the list of emitted alert events
(`playAlert` calls), in order. -/
def handleTelemetry (s : GlobalState) (t : TelemetryFrame) :
    GlobalState × List AlertType :=
  if s.myCarIdx = -1 ∨ s.analyzedDrivers = [] then (s, [])
  else if t.sessionFlags.testBit 3 then
    if s.currentPhase ≠ SessionPhase.POST_RACE then
      ({ s with currentPhase := SessionPhase.POST_RACE }, [])
    else (s, [])
  else
    let myIncidents := t.playerCarMyIncidentCount
    let step1 : GlobalState × List AlertType :=
      if s.lastKnownIncidents = -1 then
        ({ s with lastKnownIncidents := myIncidents, mySessionIncidents := 0 }, [])
      else if myIncidents > s.lastKnownIncidents then
        ({ s with
            mySessionIncidents :=
              s.mySessionIncidents + (myIncidents - s.lastKnownIncidents)
            lastKnownIncidents := myIncidents }, [AlertType.incident])
      else (s, [])
    let s1 := step1.1
    let myLapDistPct := t.carIdxLapDistPct s.myCarIdx.toNat
    let myLap := t.carIdxLap s.myCarIdx.toNat
    if myLap < 0 then (s1, step1.2)
    else
      let nearby := computeNearby s1 t myLapDistPct
      let sorted := nearby.mergeSort (fun a b => decide (a.gap ≤ b.gap))
      let zoneStep := displayRaceStatus s1.driversInDangerZone sorted
      ({ s1 with driversInDangerZone := zoneStep.1 },
       step1.2 ++ zoneStep.2.map (fun _ => AlertType.danger))

/- ===================================================================
   Theorems
   =================================================================== -/

/-- C1: for every non-negative integer lap delta, `estimateIncidentTypes`
returns counts (x4, x2, x1) that are non-negative, satisfy
4*x4 + 2*x2 + 1*x1 = delta, and equal the greedy highest-first
decomposition (as many 4s as fit, then as many 2s, final remainder 0 or 1
as the off-track count). -/
theorem estimateIncidentTypes_greedy (d : ℤ) (h : 0 ≤ d) :
    0 ≤ (estimateIncidentTypes d).1 ∧
    0 ≤ (estimateIncidentTypes d).2.1 ∧
    0 ≤ (estimateIncidentTypes d).2.2 ∧
    4 * (estimateIncidentTypes d).1 + 2 * (estimateIncidentTypes d).2.1 +
      1 * (estimateIncidentTypes d).2.2 = d ∧
    (estimateIncidentTypes d).1 = d / 4 ∧
    (estimateIncidentTypes d).2.1 = d % 4 / 2 ∧
    (estimateIncidentTypes d).2.2 = d % 4 % 2 := by
  unfold estimateIncidentTypes
  by_cases hd : d ≤ 0
  · have h0 : d = 0 := le_antisymm hd h
    subst h0
    norm_num
  · simp only [hd, if_neg, not_false_iff, sub4Loop_eq, sub2Loop_eq]
    have ht : (d.toNat : ℤ) = d := Int.toNat_of_nonneg h
    refine ⟨?_, ?_, ?_, ?_, ?_, ?_, ?_⟩ <;> omega

theorem estimateIncidentTypes_greedy_witness :
    0 ≤ (estimateIncidentTypes 11).1 ∧
    0 ≤ (estimateIncidentTypes 11).2.1 ∧
    0 ≤ (estimateIncidentTypes 11).2.2 ∧
    4 * (estimateIncidentTypes 11).1 + 2 * (estimateIncidentTypes 11).2.1 +
      1 * (estimateIncidentTypes 11).2.2 = 11 ∧
    (estimateIncidentTypes 11).1 = 11 / 4 ∧
    (estimateIncidentTypes 11).2.1 = 11 % 4 / 2 ∧
    (estimateIncidentTypes 11).2.2 = 11 % 4 % 2 :=
  estimateIncidentTypes_greedy 11 (by norm_num)

/-- C4: `classifyRisk` returns LOW below 4, MODERATE in [4, 7), HIGH at or
above 7; in particular at the boundary scores 3.9, 4.0, 6.9 and 7.0. -/
theorem classifyRisk_spec :
    (∀ s : ℚ, s < 4 → classifyRisk s = "LOW") ∧
    (∀ s : ℚ, 4 ≤ s → s < 7 → classifyRisk s = "MODERATE") ∧
    (∀ s : ℚ, 7 ≤ s → classifyRisk s = "HIGH") ∧
    classifyRisk (39/10) = "LOW" ∧
    classifyRisk 4 = "MODERATE" ∧
    classifyRisk (69/10) = "MODERATE" ∧
    classifyRisk 7 = "HIGH" := by
  refine ⟨?_, ?_, ?_, ?_, ?_, ?_, ?_⟩
  · intro s hs
    simp [classifyRisk, hs]
  · intro s h1 h2
    rw [classifyRisk, if_neg (by linarith), if_pos h2]
  · intro s h
    rw [classifyRisk, if_neg (by linarith), if_neg (by linarith)]
  · norm_num [classifyRisk]
  · norm_num [classifyRisk]
  · norm_num [classifyRisk]
  · norm_num [classifyRisk]

theorem classifyRisk_spec_witness :
    classifyRisk 3 = "LOW" ∧ classifyRisk 5 = "MODERATE" ∧
    classifyRisk 8 = "HIGH" :=
  ⟨classifyRisk_spec.1 3 (by norm_num),
   classifyRisk_spec.2.1 5 (by norm_num) (by norm_num),
   classifyRisk_spec.2.2.1 8 (by norm_num)⟩

/-- C7: the field recommendation is CONSERVATIVE exactly when
(SR buffer < 0.2 and overall risk ≥ 5) or overall risk ≥ 7 or
high-risk count ≥ 5; otherwise MODERATE exactly when overall risk ≥ 5 or
high-risk count ≥ 3; otherwise AGGRESSIVE; and a field with mean risk
score 7.2 and 6 HIGH drivers yields CONSERVATIVE. -/
theorem generateGridRecommendation_spec :
    ∀ (overallRisk : ℚ) (highRiskCount : ℕ) (u : UserProfile),
      (generateGridRecommendation overallRisk highRiskCount u = "CONSERVATIVE" ↔
        ((u.sr - u.srGoal < 2/10 ∧ 5 ≤ overallRisk) ∨ 7 ≤ overallRisk ∨
          5 ≤ highRiskCount)) ∧
      (generateGridRecommendation overallRisk highRiskCount u = "MODERATE" ↔
        (¬((u.sr - u.srGoal < 2/10 ∧ 5 ≤ overallRisk) ∨ 7 ≤ overallRisk ∨
            5 ≤ highRiskCount) ∧
          (5 ≤ overallRisk ∨ 3 ≤ highRiskCount))) ∧
      (generateGridRecommendation overallRisk highRiskCount u = "AGGRESSIVE" ↔
        (¬((u.sr - u.srGoal < 2/10 ∧ 5 ≤ overallRisk) ∨ 7 ≤ overallRisk ∨
            5 ≤ highRiskCount) ∧
          ¬(5 ≤ overallRisk ∨ 3 ≤ highRiskCount))) ∧
      generateGridRecommendation (72/10) 6 u = "CONSERVATIVE" := by
  intro r c u
  unfold generateGridRecommendation
  simp only [ge_iff_le]
  refine ⟨?_, ?_, ?_, ?_⟩
  · split_ifs with h1 h2 h3 <;> simp_all
  · split_ifs with h1 h2 h3 <;> simp_all
  · split_ifs with h1 h2 h3 <;> simp_all
  · split_ifs with h1 h2 h3 <;> first | rfl | (exfalso; revert h2; norm_num)

/-- C9: `resetSessionState` resets every session-scoped field to its
initial value and leaves the authentication handle (`client` and
`authenticated`) unchanged. -/
theorem resetSessionState_spec :
    ∀ s : GlobalState,
      resetSessionState s =
        { initialGlobalState with
          client := s.client
          authenticated := s.authenticated } := by
  intro s
  rfl

/-- C10: while the local car slot is unknown (`myCarIdx = -1`) or no
drivers have been analyzed, `handleTelemetry` leaves the state unchanged
and emits no alert. -/
theorem handleTelemetry_noop (s : GlobalState) (t : TelemetryFrame)
    (h : s.myCarIdx = -1 ∨ s.analyzedDrivers = []) :
    handleTelemetry s t = (s, []) := by
  unfold handleTelemetry
  rw [if_pos h]

/-- A concrete telemetry frame used by the witnesses. -/
def sampleFrame : TelemetryFrame :=
  { sessionFlags := 4
    playerCarMyIncidentCount := 3
    carIdxLap := fun _ => 1
    carIdxLapDistPct := fun _ => 0
    carIdxClassPosition := fun _ => 1
    carIdxOnPitRoad := fun _ => false }

theorem handleTelemetry_noop_witness :
    handleTelemetry initialGlobalState sampleFrame = (initialGlobalState, []) :=
  handleTelemetry_noop initialGlobalState sampleFrame (Or.inl rfl)

/-- The `alertConfig` value when none of the eight environment variables
is set: every switch enabled. -/
def defaultAlertConfig : AlertConfig :=
  mkAlertConfig none none none none none none none none

/-- The `alertConfig` value when all eight environment variables are set
to the string off: every switch disabled. -/
def allOffAlertConfig : AlertConfig :=
  mkAlertConfig (some "off") (some "off") (some "off") (some "off")
    (some "off") (some "off") (some "off") (some "off")

/-- C8 counterexample: the claim that all four alert kinds are gated by
the eight switches fails.  With every switch enabled, a clear alert still
emits no sound (it is unconditionally skipped); with every switch
disabled, a warning alert still emits a sound (it is never gated). -/
theorem playAlert_not_all_kinds_gated :
    playAlertEmits defaultAlertConfig SessionType.race AlertType.clear = false ∧
    playAlertEmits allOffAlertConfig SessionType.race AlertType.warning = true ∧
    defaultAlertConfig.race.danger = true ∧
    defaultAlertConfig.race.incident = true ∧
    allOffAlertConfig.race.danger = false ∧
    allOffAlertConfig.race.incident = false := by
  refine ⟨rfl, rfl, rfl, rfl, ?_, ?_⟩ <;> decide

/-- C8 amended: danger and incident alerts are each independently gated
by the current session type's switch of the same name (each switch
defaulting to enabled when its environment variable is absent and
disabled exactly when it lowercases to off); warning alerts are never
suppressed by configuration, and clear alerts never emit a sound. -/
theorem playAlert_gating :
    (∀ (cfg : AlertConfig) (st : SessionType),
      playAlertEmits cfg st AlertType.danger = (cfg.forSession st).danger ∧
      playAlertEmits cfg st AlertType.incident = (cfg.forSession st).incident ∧
      playAlertEmits cfg st AlertType.warning = true ∧
      playAlertEmits cfg st AlertType.clear = false) ∧
    switchEnabled none = true ∧
    switchEnabled (some "off") = false ∧
    switchEnabled (some "OFF") = false ∧
    switchEnabled (some "on") = true := by
  refine ⟨fun cfg st => ⟨rfl, rfl, rfl, rfl⟩, rfl, ?_, ?_, ?_⟩ <;> decide

/- Helper lemmas about jsRound. -/

theorem jsRound_mono {q r : ℚ} (h : q ≤ r) : jsRound q ≤ jsRound r :=
  Int.floor_le_floor (by linarith)

theorem jsRound_nonneg {q : ℚ} (h : 0 ≤ q) : 0 ≤ jsRound q :=
  Int.le_floor.2 (by norm_num; linarith)

theorem jsRound_le_of_le {q : ℚ} {n : ℤ} (h : q ≤ (n : ℚ)) : jsRound q ≤ n :=
  Int.floor_le_iff.2 (by linarith)

theorem jsRound_ge (q : ℚ) : q - 1/2 ≤ (jsRound q : ℚ) := by
  have := Int.lt_floor_add_one (q + 1/2)
  have h2 : (jsRound q : ℚ) = (⌊q + 1/2⌋ : ℚ) := rfl
  linarith

theorem jsRound_le (q : ℚ) : (jsRound q : ℚ) ≤ q + 1/2 := by
  have := Int.floor_le (q + 1/2)
  have h2 : (jsRound q : ℚ) = (⌊q + 1/2⌋ : ℚ) := rfl
  linarith

/- Helper lemmas for the risk score. -/

theorem riskBaseScore_mono {a1 a2 : ℚ} (h : a1 ≤ a2) :
    riskBaseScore a1 ≤ riskBaseScore a2 := by
  unfold riskBaseScore
  have hmin2 : a2 > 5 → (0:ℚ) ≤ min ((a2 - 5) * (8/10)) 4 :=
    fun h5 => le_min (by nlinarith) (by norm_num)
  split_ifs with h1 h2 h3 h4 h5 h6 h7 <;>
    first
      | linarith
      | (have hm2 := hmin2 (by linarith); linarith)
      | (have : min ((a1 - 5) * (8/10)) 4 ≤ min ((a2 - 5) * (8/10)) 4 :=
          min_le_min (by linarith) le_rfl
         linarith)

theorem riskBaseScore_nonneg {a : ℚ} (h : 0 ≤ a) : 0 ≤ riskBaseScore a := by
  unfold riskBaseScore
  split_ifs with h1 h2 <;>
    first
      | linarith
      | (have : (0:ℚ) ≤ min ((a - 5) * (8/10)) 4 :=
          le_min (by nlinarith) (by norm_num)
         linarith)

theorem riskTimingModifier_nonneg (t : IncidentTiming) :
    0 ≤ riskTimingModifier t := by
  unfold riskTimingModifier
  split_ifs <;> norm_num

/-- C3 amended: `calculateRiskScore` is monotonically non-decreasing in
average incidents for every fixed timing, never exceeds 10, and is
non-negative whenever the average-incidents input is non-negative (the
code caps the score at 10 but applies no lower clamp, so a negative
average produces a negative score). -/
theorem calculateRiskScore_props :
    (∀ (timing : IncidentTiming) (a1 a2 : ℚ), a1 ≤ a2 →
        calculateRiskScore a1 timing ≤ calculateRiskScore a2 timing) ∧
    (∀ (a : ℚ) (timing : IncidentTiming), calculateRiskScore a timing ≤ 10) ∧
    (∀ (a : ℚ) (timing : IncidentTiming), 0 ≤ a →
        0 ≤ calculateRiskScore a timing) := by
  refine ⟨?_, ?_, ?_⟩
  · intro t a1 a2 h
    unfold calculateRiskScore
    have hb := riskBaseScore_mono h
    have hm : min (riskBaseScore a1 + riskTimingModifier t) 10 * 10 ≤
        min (riskBaseScore a2 + riskTimingModifier t) 10 * 10 := by
      have := min_le_min (add_le_add_right hb (riskTimingModifier t))
        (le_refl (10:ℚ))
      linarith
    have := jsRound_mono hm
    have hc : ((jsRound (min (riskBaseScore a1 + riskTimingModifier t) 10 * 10)) : ℚ) ≤
        ((jsRound (min (riskBaseScore a2 + riskTimingModifier t) 10 * 10)) : ℚ) := by
      exact_mod_cast this
    linarith
  · intro a t
    unfold calculateRiskScore
    have h1 : min (riskBaseScore a + riskTimingModifier t) 10 ≤ 10 :=
      min_le_right _ _
    have h2 : jsRound (min (riskBaseScore a + riskTimingModifier t) 10 * 10) ≤ 100 :=
      jsRound_le_of_le (by push_cast; linarith)
    have h3 : ((jsRound (min (riskBaseScore a + riskTimingModifier t) 10 * 10)) : ℚ) ≤ 100 := by
      exact_mod_cast h2
    linarith
  · intro a t h
    unfold calculateRiskScore
    have h1 : (0:ℚ) ≤ min (riskBaseScore a + riskTimingModifier t) 10 :=
      le_min (by have := riskBaseScore_nonneg h
                 have := riskTimingModifier_nonneg t
                 linarith)
        (by norm_num)
    have h2 : 0 ≤ jsRound (min (riskBaseScore a + riskTimingModifier t) 10 * 10) :=
      jsRound_nonneg (by linarith)
    have h3 : (0:ℚ) ≤ ((jsRound (min (riskBaseScore a + riskTimingModifier t) 10 * 10)) : ℚ) := by
      exact_mod_cast h2
    linarith

theorem calculateRiskScore_props_witness :
    calculateRiskScore 1 ⟨0, 0, 0⟩ ≤ calculateRiskScore 2 ⟨0, 0, 0⟩ ∧
    calculateRiskScore 2 ⟨0, 0, 0⟩ ≤ 10 ∧
    0 ≤ calculateRiskScore 1 ⟨0, 0, 0⟩ :=
  ⟨calculateRiskScore_props.1 ⟨0, 0, 0⟩ 1 2 (by norm_num),
   calculateRiskScore_props.2.1 2 ⟨0, 0, 0⟩,
   calculateRiskScore_props.2.2 1 ⟨0, 0, 0⟩ (by norm_num)⟩

/-- C3 counterexample: the score is not in [0, 10] for every input: at
average incidents -2 with zero timing fractions the score is -3, because
the code applies no lower clamp. -/
theorem calculateRiskScore_below_zero :
    calculateRiskScore (-2) ⟨0, 0, 0⟩ = -3 ∧
    ¬(0 ≤ calculateRiskScore (-2) ⟨0, 0, 0⟩) := by
  have h : calculateRiskScore (-2) ⟨0, 0, 0⟩ = -3 := by
    unfold calculateRiskScore riskBaseScore riskTimingModifier jsRound
    norm_num
  exact ⟨h, by rw [h]; norm_num⟩

theorem combinedRaces_def (searchRaces recentRaces : List RaceRec) :
    combinedRaces searchRaces recentRaces =
      if (searchRaces.mergeSort
          (fun a b => decide (b.sessionStartTime ≤ a.sessionStartTime))).length = 0
      then recentRaces
      else searchRaces.mergeSort
        (fun a b => decide (b.sessionStartTime ≤ a.sessionStartTime)) := rfl

theorem analyzeDriverOutcome_def (searchRaces recentRaces : List RaceRec)
    (custId : ℕ) (numRaces : ℤ) :
    analyzeDriverOutcome searchRaces recentRaces custId numRaces =
      if (jsSliceTo (combinedRaces searchRaces recentRaces) numRaces).length = 0
      then Except.error ("No recent races found for driver " ++ toString custId)
      else Except.ok (jsSliceTo (combinedRaces searchRaces recentRaces) numRaces) :=
  rfl

theorem combinedRaces_eq_nil (searchRaces recentRaces : List RaceRec) :
    combinedRaces searchRaces recentRaces = [] ↔
      searchRaces = [] ∧ recentRaces = [] := by
  rw [combinedRaces_def]
  have hlen : (searchRaces.mergeSort
      (fun a b => decide (b.sessionStartTime ≤ a.sessionStartTime))).length =
      searchRaces.length := List.length_mergeSort searchRaces
  split_ifs with h0
  · have hs : searchRaces = [] := List.length_eq_zero.1 (by omega)
    simp [hs]
  · constructor
    · intro h
      rw [h] at h0
      simp at h0
    · rintro ⟨h1, h2⟩
      exact absurd (by rw [hlen, h1]; rfl) h0

/-- C6 amended: for every `numRaces ≥ 1`, `analyzeDriver` fails with the
no-recent-races error naming the participant if and only if both the
30-day search and the recent-races fallback return zero races; whenever
at least one race is found it proceeds to build a profile.  (For
`numRaces ≤ 0`, `slice(0, numRaces)` is empty and the error is raised
even when races were found.) -/
theorem analyzeDriverOutcome_error_iff
    (searchRaces recentRaces : List RaceRec) (custId : ℕ) (numRaces : ℤ)
    (hn : 1 ≤ numRaces) :
    ((∃ e, analyzeDriverOutcome searchRaces recentRaces custId numRaces =
        Except.error e) ↔ (searchRaces = [] ∧ recentRaces = [])) ∧
    analyzeDriverOutcome [] [] custId numRaces =
      Except.error ("No recent races found for driver " ++ toString custId) := by
  have hslice : ∀ l : List RaceRec, jsSliceTo l numRaces = l.take numRaces.toNat := by
    intro l
    unfold jsSliceTo
    rw [if_neg (by omega)]
  constructor
  · rw [analyzeDriverOutcome_def, hslice]
    have hkey :
        ((combinedRaces searchRaces recentRaces).take numRaces.toNat).length = 0 ↔
          (searchRaces = [] ∧ recentRaces = []) := by
      rw [List.length_take, ← combinedRaces_eq_nil searchRaces recentRaces,
        ← List.length_eq_zero]
      omega
    split_ifs with hc
    · exact iff_of_true ⟨_, rfl⟩ (hkey.1 hc)
    · refine iff_of_false ?_ (fun h => hc (hkey.2 h))
      rintro ⟨e, he⟩
      cases he
  · rw [analyzeDriverOutcome_def,
      (combinedRaces_eq_nil [] []).2 ⟨rfl, rfl⟩, hslice]
    simp

/-- A concrete race record used by the C6 witness and counterexample. -/
def sampleRace : RaceRec := { sessionStartTime := 0, incidents := 0 }

theorem analyzeDriverOutcome_error_iff_witness :
    ((∃ e, analyzeDriverOutcome [sampleRace] [] 123 10 = Except.error e) ↔
      (([sampleRace] : List RaceRec) = [] ∧ ([] : List RaceRec) = [])) ∧
    analyzeDriverOutcome [] [] 123 10 =
      Except.error ("No recent races found for driver " ++ toString (123 : ℕ)) :=
  analyzeDriverOutcome_error_iff [sampleRace] [] 123 10 (by norm_num)

/-- C6 counterexample: with `numRaces = 0` the call fails with the
no-recent-races error even though one race was found in the combined
window, so the failure is not equivalent to finding zero races. -/
theorem analyzeDriverOutcome_numRaces_zero :
    analyzeDriverOutcome [sampleRace] [] 123 0 =
      Except.error ("No recent races found for driver " ++ toString (123 : ℕ)) ∧
    ([sampleRace] : List RaceRec) ≠ [] := by
  constructor
  · rfl
  · simp

/- C2: invariants of the incident-timing fractions. -/

/-- The three timing counters are non-negative. -/
def TimingNonneg (t : TimingTally) : Prop :=
  0 ≤ t.lap1_2Incidents ∧ 0 ≤ t.midRaceIncidents ∧ 0 ≤ t.finalLapIncidents

theorem foldl_preserve {α β : Type _} (P : α → Prop) (f : α → β → α)
    (l : List β) (a : α)
    (hf : ∀ x b, P x → P (f x b)) (h : P a) : P (l.foldl f a) := by
  induction l generalizing a with
  | nil => exact h
  | cons x xs ih => exact ih _ (hf _ _ h)

theorem tallyLapPair_nonneg (totalLaps : ℕ) (acc : TimingTally)
    (prev cur : LapData) (h : TimingNonneg acc) :
    TimingNonneg (tallyLapPair totalLaps acc prev cur) := by
  obtain ⟨h1, h2, h3⟩ := h
  unfold TimingNonneg
  simp only [tallyLapPair]
  split_ifs <;> refine ⟨?_, ?_, ?_⟩ <;> (try simp) <;> omega

theorem tallyRace_nonneg (acc : TimingTally) (lapData : List LapData)
    (h : TimingNonneg acc) : TimingNonneg (tallyRace acc lapData) := by
  unfold tallyRace
  split_ifs with h0
  · exact h
  · exact foldl_preserve _ _ _ _
      (fun x b hx => tallyLapPair_nonneg _ x b.1 b.2 hx) h

theorem tallyRaces_nonneg (races : List (List LapData)) :
    TimingNonneg (tallyRaces races) :=
  foldl_preserve _ _ _ _ (fun x b hx => tallyRace_nonneg x b hx)
    ⟨le_refl 0, le_refl 0, le_refl 0⟩

/-- Bounds of one rounded fraction: with 0 ≤ a ≤ tot and tot > 0,
`Math.round((a/tot)*100)/100` lies in [0, 1]. -/
theorem roundedFraction_bounds (a tot : ℤ) (h0 : 0 ≤ a) (h1 : a ≤ tot)
    (h2 : 0 < tot) :
    0 ≤ (jsRound ((a / tot : ℚ) * 100) : ℚ) / 100 ∧
      (jsRound ((a / tot : ℚ) * 100) : ℚ) / 100 ≤ 1 := by
  have htq : (0:ℚ) < (tot : ℚ) := by exact_mod_cast h2
  have haq : (0:ℚ) ≤ (a : ℚ) := by exact_mod_cast h0
  have hfrac0 : (0:ℚ) ≤ (a / tot : ℚ) * 100 := by positivity
  have hfrac1 : (a / tot : ℚ) * 100 ≤ 100 := by
    have : (a / tot : ℚ) ≤ 1 := by
      rw [div_le_one htq]
      exact_mod_cast h1
    linarith
  constructor
  · have := jsRound_nonneg hfrac0
    have h3 : (0:ℚ) ≤ (jsRound ((a / tot : ℚ) * 100) : ℚ) := by exact_mod_cast this
    linarith
  · have := @jsRound_le_of_le ((a / tot : ℚ) * 100) 100 (by push_cast; linarith)
    have h3 : ((jsRound ((a / tot : ℚ) * 100)) : ℚ) ≤ 100 := by exact_mod_cast this
    linarith

/-- C2 amended: for every lap-sample input, each of the three timing
fractions produced by `analyzeIncidentTiming` lies in [0, 1] and the
fractions sum to 1 within 0.015 (each is rounded to two decimals, so the
sum can be off by up to 3 half-hundredths, as at the 1/3-1/3-1/3 split
which yields 0.33+0.33+0.33 = 0.99); when the total incident points in
the window is zero, the fractions default to the fixed triple
(0.33, 0.34, 0.33), which sums to exactly 1. -/
theorem analyzeIncidentTiming_fractions (races : List (List LapData)) :
    (0 ≤ (analyzeIncidentTiming races).1.lap1_2 ∧
      (analyzeIncidentTiming races).1.lap1_2 ≤ 1) ∧
    (0 ≤ (analyzeIncidentTiming races).1.midRace ∧
      (analyzeIncidentTiming races).1.midRace ≤ 1) ∧
    (0 ≤ (analyzeIncidentTiming races).1.finalLap ∧
      (analyzeIncidentTiming races).1.finalLap ≤ 1) ∧
    |(analyzeIncidentTiming races).1.lap1_2 +
        (analyzeIncidentTiming races).1.midRace +
        (analyzeIncidentTiming races).1.finalLap - 1| ≤ 3/200 ∧
    ((tallyRaces races).lap1_2Incidents + (tallyRaces races).midRaceIncidents +
        (tallyRaces races).finalLapIncidents = 0 →
      (analyzeIncidentTiming races).1 =
        { lap1_2 := 33/100, midRace := 34/100, finalLap := 33/100 }) := by
  obtain ⟨ha, hb, hc⟩ := tallyRaces_nonneg races
  have hdef : (analyzeIncidentTiming races).1 = timingOfTally (tallyRaces races) := rfl
  set t := tallyRaces races with ht
  rw [hdef]
  unfold timingOfTally
  dsimp only
  by_cases h0 : t.lap1_2Incidents + t.midRaceIncidents + t.finalLapIncidents = 0
  · rw [if_pos h0]
    refine ⟨by norm_num, by norm_num, by norm_num, by norm_num, fun _ => rfl⟩
  · rw [if_neg h0]
    set a := t.lap1_2Incidents
    set b := t.midRaceIncidents
    set c := t.finalLapIncidents
    set tot := a + b + c with htot
    have htpos : 0 < tot := by omega
    have htq : (0:ℚ) < (tot : ℚ) := by exact_mod_cast htpos
    have hA := roundedFraction_bounds a tot ha (by omega) htpos
    have hB := roundedFraction_bounds b tot hb (by omega) htpos
    have hC := roundedFraction_bounds c tot hc (by omega) htpos
    refine ⟨hA, hB, hC, ?_, fun hz => absurd hz h0⟩
    have hsum : (a / tot : ℚ) * 100 + (b / tot : ℚ) * 100 +
        (c / tot : ℚ) * 100 = 100 := by
      field_simp
      push_cast [htot]
      ring
    have ga1 := jsRound_ge ((a / tot : ℚ) * 100)
    have ga2 := jsRound_le ((a / tot : ℚ) * 100)
    have gb1 := jsRound_ge ((b / tot : ℚ) * 100)
    have gb2 := jsRound_le ((b / tot : ℚ) * 100)
    have gc1 := jsRound_ge ((c / tot : ℚ) * 100)
    have gc2 := jsRound_le ((c / tot : ℚ) * 100)
    rw [abs_le]
    constructor <;> [skip; skip] <;> linarith

theorem analyzeIncidentTiming_fractions_witness :
    (0 ≤ (analyzeIncidentTiming ([] : List (List LapData))).1.lap1_2 ∧
      (analyzeIncidentTiming ([] : List (List LapData))).1.lap1_2 ≤ 1) ∧
    (analyzeIncidentTiming ([] : List (List LapData))).1 =
      { lap1_2 := 33/100, midRace := 34/100, finalLap := 33/100 } :=
  ⟨(analyzeIncidentTiming_fractions []).1,
   (analyzeIncidentTiming_fractions []).2.2.2.2 rfl⟩

/-- A lap chart with one incident point gained on lap 2, one mid-race and
one on the final lap (seven laps in total). -/
def sampleLapChart : List LapData :=
  [⟨0, 0⟩, ⟨1, 0⟩, ⟨2, 1⟩, ⟨3, 1⟩, ⟨4, 2⟩, ⟨5, 2⟩, ⟨6, 3⟩]

/-- C2 counterexample: the claim fails in both parts.  With incident
points split equally over the three windows every fraction rounds to
0.33 and the sum is 0.99, far outside the claimed 1e-6 tolerance; and
with zero observed incidents the default triple is (0.33, 0.34, 0.33),
not 1/3 each. -/
theorem analyzeIncidentTiming_claim_fails :
    (analyzeIncidentTiming [sampleLapChart]).1 =
      { lap1_2 := 33/100, midRace := 33/100, finalLap := 33/100 } ∧
    ¬(|(33/100 : ℚ) + 33/100 + 33/100 - 1| ≤ 1/1000000) ∧
    (analyzeIncidentTiming ([] : List (List LapData))).1 =
      { lap1_2 := 33/100, midRace := 34/100, finalLap := 33/100 } ∧
    (34/100 : ℚ) ≠ 1/3 ∧ (33/100 : ℚ) ≠ 1/3 := by
  have htally : tallyRaces [sampleLapChart] = ⟨1, 1, 1, 0, 0, 3⟩ := by decide
  have h1 : (analyzeIncidentTiming [sampleLapChart]).1 =
      timingOfTally ⟨1, 1, 1, 0, 0, 3⟩ := by
    show timingOfTally (tallyRaces [sampleLapChart]) = _
    rw [htally]
  refine ⟨?_, by norm_num [abs_le], rfl, by norm_num, by norm_num⟩
  rw [h1]
  unfold timingOfTally
  norm_num [jsRound, IncidentTiming.mk.injEq]

/- C5: edge-triggered danger alerts. -/

theorem setAdd_mem (s : List ℕ) (x c : ℕ) :
    c ∈ setAdd s x ↔ c ∈ s ∨ c = x := by
  unfold setAdd
  split_ifs with h
  · have hx : x ∈ s := by simpa using h
    constructor
    · exact Or.inl
    · rintro (h1 | rfl)
      · exact h1
      · exact hx
  · simp

theorem dangerFold_fst (oldZone : List ℕ) (l : List NearbyDriver)
    (acc : List ℕ × List ℕ) (c : ℕ) :
    c ∈ (l.foldl
        (fun acc threat =>
          if threat.gap < DANGER_ZONE_THRESHOLD then
            (setAdd acc.1 threat.driver.carIdx,
             if oldZone.contains threat.driver.carIdx then acc.2
             else acc.2 ++ [threat.driver.carIdx])
          else acc) acc).1 ↔
      c ∈ acc.1 ∨ ∃ th ∈ l, th.driver.carIdx = c ∧
        th.gap < DANGER_ZONE_THRESHOLD := by
  induction l generalizing acc with
  | nil => simp
  | cons x xs ih =>
    rw [List.foldl_cons, ih]
    by_cases hg : x.gap < DANGER_ZONE_THRESHOLD
    · rw [if_pos hg]
      dsimp only
      rw [setAdd_mem]
      simp only [List.mem_cons]
      constructor
      · rintro ((h | rfl) | ⟨th, hth, hc, hlt⟩)
        · exact Or.inl h
        · exact Or.inr ⟨x, Or.inl rfl, rfl, hg⟩
        · exact Or.inr ⟨th, Or.inr hth, hc, hlt⟩
      · rintro (h | ⟨th, (rfl | hth), hc, hlt⟩)
        · exact Or.inl (Or.inl h)
        · exact Or.inl (Or.inr hc.symm)
        · exact Or.inr ⟨th, hth, hc, hlt⟩
    · rw [if_neg hg]
      simp only [List.mem_cons]
      constructor
      · rintro (h | ⟨th, hth, hc, hlt⟩)
        · exact Or.inl h
        · exact Or.inr ⟨th, Or.inr hth, hc, hlt⟩
      · rintro (h | ⟨th, (rfl | hth), hc, hlt⟩)
        · exact Or.inl h
        · exact absurd hlt hg
        · exact Or.inr ⟨th, hth, hc, hlt⟩

theorem dangerFold_snd (oldZone : List ℕ) (l : List NearbyDriver)
    (acc : List ℕ × List ℕ) (c : ℕ) :
    c ∈ (l.foldl
        (fun acc threat =>
          if threat.gap < DANGER_ZONE_THRESHOLD then
            (setAdd acc.1 threat.driver.carIdx,
             if oldZone.contains threat.driver.carIdx then acc.2
             else acc.2 ++ [threat.driver.carIdx])
          else acc) acc).2 ↔
      c ∈ acc.2 ∨ ((∃ th ∈ l, th.driver.carIdx = c ∧
        th.gap < DANGER_ZONE_THRESHOLD) ∧ c ∉ oldZone) := by
  induction l generalizing acc with
  | nil => simp
  | cons x xs ih =>
    rw [List.foldl_cons, ih]
    by_cases hg : x.gap < DANGER_ZONE_THRESHOLD
    · rw [if_pos hg]
      dsimp only
      by_cases hcont : oldZone.contains x.driver.carIdx
      · have hmem : x.driver.carIdx ∈ oldZone := by simpa using hcont
        rw [if_pos hcont]
        simp only [List.mem_cons]
        constructor
        · rintro (h | ⟨⟨th, hth, hc, hlt⟩, hold⟩)
          · exact Or.inl h
          · exact Or.inr ⟨⟨th, Or.inr hth, hc, hlt⟩, hold⟩
        · rintro (h | ⟨⟨th, (rfl | hth), hc, hlt⟩, hold⟩)
          · exact Or.inl h
          · exact absurd (hc ▸ hmem) hold
          · exact Or.inr ⟨⟨th, hth, hc, hlt⟩, hold⟩
      · have hmem : x.driver.carIdx ∉ oldZone := by simpa using hcont
        rw [if_neg hcont]
        simp only [List.mem_cons, List.mem_append, List.mem_singleton,
          List.not_mem_nil, or_false]
        constructor
        · rintro ((h | rfl) | ⟨⟨th, hth, hc, hlt⟩, hold⟩)
          · exact Or.inl h
          · exact Or.inr ⟨⟨x, Or.inl rfl, rfl, hg⟩, hmem⟩
          · exact Or.inr ⟨⟨th, Or.inr hth, hc, hlt⟩, hold⟩
        · rintro (h | ⟨⟨th, (rfl | hth), hc, hlt⟩, hold⟩)
          · exact Or.inl (Or.inl h)
          · exact Or.inl (Or.inr hc.symm)
          · exact Or.inr ⟨⟨th, hth, hc, hlt⟩, hold⟩
    · rw [if_neg hg]
      simp only [List.mem_cons]
      constructor
      · rintro (h | ⟨⟨th, hth, hc, hlt⟩, hold⟩)
        · exact Or.inl h
        · exact Or.inr ⟨⟨th, Or.inr hth, hc, hlt⟩, hold⟩
      · rintro (h | ⟨⟨th, (rfl | hth), hc, hlt⟩, hold⟩)
        · exact Or.inl h
        · exact absurd hlt hg
        · exact Or.inr ⟨⟨th, hth, hc, hlt⟩, hold⟩

theorem displayRaceStatus_zone_mem (oldZone : List ℕ)
    (nearby : List NearbyDriver) (c : ℕ) :
    c ∈ (displayRaceStatus oldZone nearby).1 ↔
      ∃ th ∈ nearby, th.driver.riskLevel = "HIGH" ∧ th.driver.carIdx = c ∧
        th.gap < DANGER_ZONE_THRESHOLD := by
  unfold displayRaceStatus
  rw [dangerFold_fst]
  simp only [List.mem_filter, List.not_mem_nil, false_or, beq_iff_eq]
  constructor
  · rintro ⟨th, ⟨hm, hh⟩, hc, hlt⟩
    exact ⟨th, hm, hh, hc, hlt⟩
  · rintro ⟨th, hm, hh, hc, hlt⟩
    exact ⟨th, ⟨hm, hh⟩, hc, hlt⟩

theorem displayRaceStatus_alert_mem (oldZone : List ℕ)
    (nearby : List NearbyDriver) (c : ℕ) :
    c ∈ (displayRaceStatus oldZone nearby).2 ↔
      ((∃ th ∈ nearby, th.driver.riskLevel = "HIGH" ∧ th.driver.carIdx = c ∧
        th.gap < DANGER_ZONE_THRESHOLD) ∧ c ∉ oldZone) := by
  unfold displayRaceStatus
  rw [dangerFold_snd]
  simp only [List.mem_filter, List.not_mem_nil, false_or, beq_iff_eq]
  constructor
  · rintro ⟨⟨th, ⟨hm, hh⟩, hc, hlt⟩, hold⟩
    exact ⟨⟨th, hm, hh, hc, hlt⟩, hold⟩
  · rintro ⟨⟨th, hm, hh, hc, hlt⟩, hold⟩
    exact ⟨⟨th, ⟨hm, hh⟩, hc, hlt⟩, hold⟩

/-- C5: the danger alert for a HIGH-risk car slot fires on exactly the
ticks where the slot's gap is below the 1.5-second threshold and the
slot was not in the tracked danger-zone set after the previous tick; the
in-zone set replaces the tracked set every tick (its membership depends
only on the current tick's gaps, not on the previous set), so while the
gap stays below the threshold no second alert fires, and after the gap
rose to or above the threshold a new drop below it alerts again.
The hypotheses say that the slot occurs in each tick's HIGH-risk nearby
list with the stated gap. -/
theorem dangerAlert_edge_triggered
    (oldZone : List ℕ) (n1 n2 : List NearbyDriver) (c : ℕ) (g1 g2 : ℚ)
    (h1e : ∃ th ∈ n1, th.driver.riskLevel = "HIGH" ∧ th.driver.carIdx = c ∧
      th.gap = g1)
    (h1u : ∀ th ∈ n1, th.driver.carIdx = c →
      th.driver.riskLevel = "HIGH" ∧ th.gap = g1)
    (h2e : ∃ th ∈ n2, th.driver.riskLevel = "HIGH" ∧ th.driver.carIdx = c ∧
      th.gap = g2)
    (h2u : ∀ th ∈ n2, th.driver.carIdx = c →
      th.driver.riskLevel = "HIGH" ∧ th.gap = g2) :
    (c ∈ (displayRaceStatus oldZone n1).2 ↔
      (g1 < DANGER_ZONE_THRESHOLD ∧ c ∉ oldZone)) ∧
    (c ∈ (displayRaceStatus oldZone n1).1 ↔ g1 < DANGER_ZONE_THRESHOLD) ∧
    (c ∈ (displayRaceStatus (displayRaceStatus oldZone n1).1 n2).2 ↔
      (g2 < DANGER_ZONE_THRESHOLD ∧ ¬g1 < DANGER_ZONE_THRESHOLD)) := by
  have key : ∀ (n : List NearbyDriver) (g : ℚ),
      (∃ th ∈ n, th.driver.riskLevel = "HIGH" ∧ th.driver.carIdx = c ∧
        th.gap = g) →
      (∀ th ∈ n, th.driver.carIdx = c →
        th.driver.riskLevel = "HIGH" ∧ th.gap = g) →
      ((∃ th ∈ n, th.driver.riskLevel = "HIGH" ∧ th.driver.carIdx = c ∧
        th.gap < DANGER_ZONE_THRESHOLD) ↔ g < DANGER_ZONE_THRESHOLD) := by
    rintro n g ⟨th0, hm0, hh0, hc0, hg0⟩ hu
    constructor
    · rintro ⟨th, hm, hh, hc, hlt⟩
      have := (hu th hm hc).2
      rwa [this] at hlt
    · intro hlt
      exact ⟨th0, hm0, hh0, hc0, hg0 ▸ hlt⟩
  refine ⟨?_, ?_, ?_⟩
  · rw [displayRaceStatus_alert_mem, key n1 g1 h1e h1u]
  · rw [displayRaceStatus_zone_mem, key n1 g1 h1e h1u]
  · rw [displayRaceStatus_alert_mem, key n2 g2 h2e h2u,
      displayRaceStatus_zone_mem, key n1 g1 h1e h1u]

/-- A concrete HIGH-risk analyzed driver in car slot 3. -/
def sampleHighDriver : AnalyzedDriver :=
  { carIdx := 3
    carNumber := "7"
    custId := 42
    riskScore := 8
    riskLevel := "HIGH"
    avgIncidents := 9
    patterns := [] }

/-- Car slot 3 one second behind the local car. -/
def sampleThreatNear : NearbyDriver :=
  { driver := sampleHighDriver
    gap := 1
    direction := "BEHIND"
    sessionIncidents := 2 }

theorem dangerAlert_edge_triggered_witness :
    (3 ∈ (displayRaceStatus [] [sampleThreatNear]).2 ↔
      ((1:ℚ) < DANGER_ZONE_THRESHOLD ∧ 3 ∉ ([] : List ℕ))) ∧
    (3 ∈ (displayRaceStatus [] [sampleThreatNear]).1 ↔
      (1:ℚ) < DANGER_ZONE_THRESHOLD) ∧
    (3 ∈ (displayRaceStatus (displayRaceStatus [] [sampleThreatNear]).1
        [sampleThreatNear]).2 ↔
      ((1:ℚ) < DANGER_ZONE_THRESHOLD ∧ ¬(1:ℚ) < DANGER_ZONE_THRESHOLD)) :=
  dangerAlert_edge_triggered [] [sampleThreatNear] [sampleThreatNear] 3 1 1
    ⟨sampleThreatNear, by simp, rfl, rfl, rfl⟩
    (by
      intro th hm hc
      have hth : th = sampleThreatNear := by simpa using hm
      subst hth
      exact ⟨rfl, rfl⟩)
    ⟨sampleThreatNear, by simp, rfl, rfl, rfl⟩
    (by
      intro th hm hc
      have hth : th = sampleThreatNear := by simpa using hm
      subst hth
      exact ⟨rfl, rfl⟩)

end RaceSafe
